import Mathlib

/-!
Verification development for the elastic-wave core of the Orapa Mine backend:
a shallow embedding of `app/services/color_mixer.py`, `app/services/piece_geometry.py`
and `app/services/ray_tracer.py`, followed by theorems settling the frozen claims.

Numeric model: Python floats are modelled by exact rationals (`ℚ`).  Every constant
appearing in the three modules is a small dyadic rational, and every arithmetic
operation the code performs on the values reached by the claims is exact in IEEE
double precision, so the rational semantics agrees with the float semantics there;
the two places where the source uses `math.sqrt` (distance comparison and vector
renormalisation) are embedded by algebraically equivalent rational forms, documented
at the definitions below.  Python strings are modelled by Lean strings over their
ASCII fragment (`str.upper`, `str.isdigit`, `str.isalpha` and lexicographic
comparison are embedded with their ASCII semantics; the theorems about arbitrary
labels carry an ASCII hypothesis).
-/

namespace OrapaMine

/-! ## Color mixer (`app/services/color_mixer.py`) -/

/-- Enum `WaveColor`: colors that elastic waves can have. -/
inductive WaveColor where
  | white
  | red
  | blue
  | yellow
  | violet
  | orange
  | green
  | black
  | transparent
  | light_red
  | light_blue
  | light_yellow
  | light_violet
  | light_orange
  | light_green
deriving DecidableEq, Repr, Fintype

/-- Enum `MineralColor`: colors of mineral pieces. -/
inductive MineralColor where
  | red
  | blue
  | yellow
  | white
  | transparent
  | black
deriving DecidableEq, Repr, Fintype

/-- A subset of the primary set `{"red", "blue", "yellow"}`.  The source represents
these subsets as `set[str]`; since `_get_color_components` only ever produces
subsets of the three primaries and `mix_colors` only ever adds one of the three,
the subset is embedded as a triple of membership booleans. -/
structure Primaries where
  red : Bool
  blue : Bool
  yellow : Bool
deriving DecidableEq, Repr

/-- `ColorMixer._get_color_components`: break a color into primary components.
The dictionary has no entry for `TRANSPARENT`, so the `.get(color, set())`
default yields the empty set there. -/
def get_color_components : WaveColor → Primaries
  | .white => ⟨false, false, false⟩
  | .red => ⟨true, false, false⟩
  | .blue => ⟨false, true, false⟩
  | .yellow => ⟨false, false, true⟩
  | .violet => ⟨true, true, false⟩
  | .orange => ⟨true, false, true⟩
  | .green => ⟨false, true, true⟩
  | .black => ⟨true, true, true⟩
  | .light_red => ⟨true, false, false⟩
  | .light_blue => ⟨false, true, false⟩
  | .light_yellow => ⟨false, false, true⟩
  | .light_violet => ⟨true, true, false⟩
  | .light_orange => ⟨true, false, true⟩
  | .light_green => ⟨false, true, true⟩
  | .transparent => ⟨false, false, false⟩

/-- `ColorMixer._components_to_color`: convert primary components to a wave color.
The frozenset dictionary covers all eight subsets, so the `.get` default `WHITE`
is unreachable; the eight cases are matched directly. -/
def components_to_color : Primaries → WaveColor
  | ⟨false, false, false⟩ => .white
  | ⟨true, false, false⟩ => .red
  | ⟨false, true, false⟩ => .blue
  | ⟨false, false, true⟩ => .yellow
  | ⟨true, true, false⟩ => .violet
  | ⟨true, false, true⟩ => .orange
  | ⟨false, true, true⟩ => .green
  | ⟨true, true, true⟩ => .black

/-- `ColorMixer._lighten_color`: lighten a color when it hits a white mineral.
The dictionary has no entry for `TRANSPARENT`; the `.get(color, color)` default
returns the color unchanged there. -/
def lighten_color : WaveColor → WaveColor
  | .white => .white
  | .red => .light_red
  | .blue => .light_blue
  | .yellow => .light_yellow
  | .violet => .light_violet
  | .orange => .light_orange
  | .green => .light_green
  | .black => .white
  | .light_red => .light_red
  | .light_blue => .light_blue
  | .light_yellow => .light_yellow
  | .light_violet => .light_violet
  | .light_orange => .light_orange
  | .light_green => .light_green
  | .transparent => .transparent

/-- `ColorMixer.mix_colors`: mix a wave color with a mineral color, returning the
new wave color, or `none` if the wave is absorbed (black petroleum). -/
def mix_colors (wave_color : WaveColor) (mineral_color : MineralColor) :
    Option WaveColor :=
  if mineral_color = .black then
    none
  else if mineral_color = .transparent then
    some wave_color
  else if mineral_color = .white then
    some (lighten_color wave_color)
  else
    let components := get_color_components wave_color
    let components :=
      if mineral_color = .red then { components with red := true }
      else if mineral_color = .blue then { components with blue := true }
      else if mineral_color = .yellow then { components with yellow := true }
      else components
    some (components_to_color components)

/-! ## Piece geometry (`app/services/piece_geometry.py`) -/

/-- Enum `PieceType`. -/
inductive PieceType where
  | large_triangle_1
  | large_triangle_2
  | medium_triangle
  | small_triangle
  | square
  | parallelogram
  | petroleum
deriving DecidableEq, Repr

/-- Enum `PieceColor`. -/
inductive PieceColor where
  | red
  | blue
  | yellow
  | white
  | transparent
  | black
deriving DecidableEq, Repr

/-- Dataclass `Edge`: an edge of a piece, with start and end points in
piece-local coordinates, a declared angle in degrees and a diagonal flag.
The `end` attribute of the source is named `end_` because `end` is a Lean
keyword; `angle` is a float in the source but every value the program stores
in it is an integer (the catalog constants and their shifts by multiples of
90 modulo 360), so it is embedded as an integer. -/
structure Edge where
  start : ℚ × ℚ
  end_ : ℚ × ℚ
  angle : ℤ
  is_diagonal : Bool
deriving DecidableEq, Repr

/-- Dataclass `PieceGeometry`. -/
structure PieceGeometry where
  piece_type : PieceType
  piece_color : PieceColor
  vertices : List (ℚ × ℚ)
  area : ℕ
  edges : List Edge
  rotation : ℤ
deriving DecidableEq, Repr

/-- One step of the ray-casting loop of `PieceGeometry._point_in_polygon`, for
the vertex pair `(p1, p2)`.  In the source, `xinters` is assigned only under
`p1y != p2y`; the guard `y > min(p1y, p2y) and y <= max(p1y, p2y)` is
unsatisfiable when `p1y == p2y`, so inside the branch the assignment always
happens and is inlined here (rational division by zero is never reached). -/
def pip_step (x y : ℚ) (inside : Bool) (p1 p2 : ℚ × ℚ) : Bool :=
  if y > min p1.2 p2.2 ∧ y ≤ max p1.2 p2.2 ∧ x ≤ max p1.1 p2.1 then
    let xinters := (y - p1.2) * (p2.1 - p1.1) / (p2.2 - p1.2) + p1.1
    if p1.1 = p2.1 ∨ x ≤ xinters then !inside else inside
  else inside

/-- `PieceGeometry._point_in_polygon`: even-odd ray-casting test.  The source
walks the vertex pairs `(v 0, v 1), (v 1, v 2), ..., (v (n-1), v 0)`, which is
the zip of the vertex list with its rotation by one. -/
def PieceGeometry.point_in_polygon (g : PieceGeometry) (point : ℚ × ℚ) : Bool :=
  (g.vertices.zip (g.vertices.rotate 1)).foldl
    (fun inside p => pip_step point.1 point.2 inside p.1 p.2) false

/-- Truncation toward zero, the semantics of the Python builtin `int()` on
floats (`int(-0.5) == 0`, unlike the floor). -/
def pyInt (q : ℚ) : ℤ :=
  if 0 ≤ q then q.floor else -((-q).floor)

/-- The list `[a, a+1, ..., b-1]`, the semantics of Python `range(a, b)`. -/
def intRange (a b : ℤ) : List ℤ :=
  (List.range (b - a).toNat).map (fun i => a + i)

/-- `PieceGeometry.get_occupied_cells`: scan the integer bounding box of the
vertices and keep each cell whose center lies inside the polygon, translated
by the placement position.  The source indexes `vertices[0]` via `min`/`max`
over the vertex list, which raises on an empty list; the canonical pieces all
have at least three vertices, and the empty case returns no cells here. -/
def PieceGeometry.get_occupied_cells (g : PieceGeometry) (position : ℤ × ℤ) :
    List (ℤ × ℤ) :=
  match g.vertices with
  | [] => []
  | v :: vt =>
    let min_x := vt.foldl (fun m p => min m p.1) v.1
    let max_x := vt.foldl (fun m p => max m p.1) v.1
    let min_y := vt.foldl (fun m p => min m p.2) v.2
    let max_y := vt.foldl (fun m p => max m p.2) v.2
    (intRange (pyInt min_y) max_y.ceil).flatMap (fun (y : ℤ) =>
      (intRange (pyInt min_x) max_x.ceil).filterMap (fun (x : ℤ) =>
        if g.point_in_polygon ((x : ℚ) + 1/2, (y : ℚ) + 1/2) then
          some (position.1 + x, position.2 + y)
        else none))

/-- Exact value of `math.cos(math.radians d)` at the right-angle degrees the
catalog uses (`rotate` is called with `degrees` in `{0, 90, 180, 270}`, per the
docstring and all call sites); other degrees are outside the embedded domain
and map to `0`. -/
def cosDeg (d : ℤ) : ℚ :=
  if d % 360 = 0 then 1
  else if d % 360 = 180 then -1
  else 0

/-- Exact value of `math.sin(math.radians d)` at the right-angle degrees, as in
`cosDeg`. -/
def sinDeg (d : ℤ) : ℚ :=
  if d % 360 = 90 then 1
  else if d % 360 = 270 then -1
  else 0

/-- `PieceGeometry.rotate`: rotate every vertex and edge endpoint about the
piece-local origin with the standard rotation matrix, shift each edge angle and
the rotation tag by `degrees` modulo 360, and return a new geometry (the source
never mutates the receiver). -/
def PieceGeometry.rotate (g : PieceGeometry) (degrees : ℤ) : PieceGeometry :=
  let cos_a := cosDeg degrees
  let sin_a := sinDeg degrees
  ⟨g.piece_type, g.piece_color,
   g.vertices.map (fun p => (p.1 * cos_a - p.2 * sin_a, p.1 * sin_a + p.2 * cos_a)),
   g.area,
   g.edges.map (fun e =>
     ⟨(e.start.1 * cos_a - e.start.2 * sin_a, e.start.1 * sin_a + e.start.2 * cos_a),
      (e.end_.1 * cos_a - e.end_.2 * sin_a, e.end_.1 * sin_a + e.end_.2 * cos_a),
      (e.angle + degrees) % 360,
      e.is_diagonal⟩),
   (g.rotation + degrees) % 360⟩

/-- `create_large_triangle`: large isosceles right triangle, area 4. -/
def create_large_triangle (color : PieceColor) : PieceGeometry :=
  ⟨if color = .white then .large_triangle_1 else .large_triangle_2,
   color,
   [(0, 0), (0, 2), (4, 0)],
   4,
   [⟨(0, 0), (0, 2), 270, false⟩,
    ⟨(0, 2), (4, 0), 45, true⟩,
    ⟨(4, 0), (0, 0), 180, false⟩],
   0⟩

/-- `create_medium_triangle`: medium isosceles right triangle, area 2. -/
def create_medium_triangle : PieceGeometry :=
  ⟨.medium_triangle,
   .yellow,
   [(0, 0), (0, 2), (2, 0)],
   2,
   [⟨(0, 0), (0, 2), 270, false⟩,
    ⟨(0, 2), (2, 0), 135, true⟩,
    ⟨(2, 0), (0, 0), 180, false⟩],
   0⟩

/-- `create_small_triangle`: small isosceles right triangle, area 1. -/
def create_small_triangle : PieceGeometry :=
  ⟨.small_triangle,
   .transparent,
   [(0, 0), (0, 1), (2, 0)],
   1,
   [⟨(0, 0), (0, 1), 270, false⟩,
    ⟨(0, 1), (2, 0), 45, true⟩,
    ⟨(2, 0), (0, 0), 180, false⟩],
   0⟩

/-- `create_square`: unit square rotated 45 degrees (diamond), area 2. -/
def create_square : PieceGeometry :=
  ⟨.square,
   .white,
   [(1, 0), (2, 1), (1, 2), (0, 1)],
   2,
   [⟨(1, 0), (2, 1), 45, true⟩,
    ⟨(2, 1), (1, 2), 135, true⟩,
    ⟨(1, 2), (0, 1), 225, true⟩,
    ⟨(0, 1), (1, 0), 315, true⟩],
   0⟩

/-- `create_parallelogram`: parallelogram, area 2. -/
def create_parallelogram : PieceGeometry :=
  ⟨.parallelogram,
   .red,
   [(0, 0), (1, 0), (2, 1), (1, 1)],
   2,
   [⟨(0, 0), (1, 0), 0, false⟩,
    ⟨(1, 0), (2, 1), 45, true⟩,
    ⟨(2, 1), (1, 1), 180, false⟩,
    ⟨(1, 1), (0, 0), 135, true⟩],
   0⟩

/-- `create_petroleum`: petroleum block, a 1 by 2 rectangle, area 2. -/
def create_petroleum : PieceGeometry :=
  ⟨.petroleum,
   .black,
   [(0, 0), (1, 0), (1, 2), (0, 2)],
   2,
   [⟨(0, 0), (1, 0), 0, false⟩,
    ⟨(1, 0), (1, 2), 90, false⟩,
    ⟨(1, 2), (0, 2), 180, false⟩,
    ⟨(0, 2), (0, 0), 270, false⟩],
   0⟩

/-- `get_all_pieces`: the seven canonical prototypes. -/
def get_all_pieces : List PieceGeometry :=
  [create_large_triangle .white,
   create_large_triangle .blue,
   create_medium_triangle,
   create_small_triangle,
   create_square,
   create_parallelogram,
   create_petroleum]

/-! ## Ray tracer (`app/services/ray_tracer.py`) -/

/-- Python exceptions that `shoot_wave` can raise: `ValueError` for an invalid
entry position, and `TypeError` from `ord()` applied to a string whose length
is not one. -/
inductive PyError where
  | typeError
  | valueError (msg : String)
deriving DecidableEq, Repr

/-- Dataclass `Vector2D`. -/
structure Vector2D where
  x : ℚ
  y : ℚ
deriving DecidableEq, Repr

/-- `Vector2D.dot`. -/
def Vector2D.dot (a b : Vector2D) : ℚ :=
  a.x * b.x + a.y * b.y

/-- Dataclass `Ray`. -/
structure Ray where
  origin : ℚ × ℚ
  direction : Vector2D
  color : WaveColor
deriving DecidableEq, Repr

/-- Dataclass `Intersection`.  The source stores the Euclidean distance
`sqrt(dx^2 + dy^2)` and uses it only in the strict comparisons
`distance < min_distance` and `distance > 0.0001`; since squaring is strictly
monotone on nonnegative reals, the embedding stores the squared distance and
compares against squared thresholds, which decides exactly the same
comparisons (and avoids the irrational square root). -/
structure Intersection where
  point : ℚ × ℚ
  distance_sq : ℚ
  edge : Edge
  piece : PieceGeometry
deriving DecidableEq, Repr

/-- Dataclass `WavePathSegment`. -/
structure WavePathSegment where
  start : ℚ × ℚ
  end_ : ℚ × ℚ
  color : WaveColor
deriving DecidableEq, Repr

/-- Dataclass `WaveResult`. -/
structure WaveResult where
  entry_position : String
  exit_position : Option String
  exit_color : Option WaveColor
  path : List WavePathSegment
  reflections : ℕ
deriving DecidableEq, Repr

/-- Class constant `RayTracer.GRID_WIDTH`. -/
def GRID_WIDTH : ℕ := 10

/-- Class constant `RayTracer.GRID_HEIGHT`. -/
def GRID_HEIGHT : ℕ := 8

/-- Class constant `RayTracer.MAX_REFLECTIONS`. -/
def MAX_REFLECTIONS : ℕ := 100

/-- Python `str.isdigit` on a single character, ASCII fragment
(codes 48 to 57). -/
def isDigitChar (c : Char) : Bool :=
  48 ≤ c.toNat && c.toNat ≤ 57

/-- Python `str.isalpha` on a single character, ASCII fragment
(codes 65 to 90 and 97 to 122). -/
def isAlphaChar (c : Char) : Bool :=
  (65 ≤ c.toNat && c.toNat ≤ 90) || (97 ≤ c.toNat && c.toNat ≤ 122)

/-- Python `str.upper`, ASCII fragment; `Char.toUpper` maps exactly the basic
latin lower case letters to upper case, as Python does on ASCII input. -/
def pyUpper (s : String) : String :=
  ⟨s.data.map Char.toUpper⟩

/-- Python `str.lower`, ASCII fragment. -/
def pyLower (s : String) : String :=
  ⟨s.data.map Char.toLower⟩

/-- Python `str.isdigit`, ASCII fragment: nonempty and all digits. -/
def pyIsdigit (s : String) : Bool :=
  !s.data.isEmpty && s.data.all isDigitChar

/-- Python `str.isalpha`, ASCII fragment: nonempty and all letters. -/
def pyIsalpha (s : String) : Bool :=
  !s.data.isEmpty && s.data.all isAlphaChar

/-- Value of Python `int(s)` for a string of ASCII digits. -/
def pyStrToNat (s : String) : ℕ :=
  s.data.foldl (fun n c => 10 * n + (c.toNat - 48)) 0

/-- Lexicographic comparison of character lists by code point, the semantics
of Python string `<=`. -/
def lexLE : List Char → List Char → Bool
  | [], _ => true
  | _ :: _, [] => false
  | a :: as, b :: bs =>
    if a.toNat < b.toNat then true
    else if a.toNat = b.toNat then lexLE as bs
    else false

/-- Python string `<=`. -/
def pyStrLE (a b : String) : Bool :=
  lexLE a.data b.data

/-- Body of `RayTracer._create_entry_ray` after the initial rebinding
`position = position.upper()`, taking the already-uppercased string.  The
source returns `Ray | None`; in addition, on an alphabetic string of length at
least two that passes one of the letter range checks, `ord(position)` raises
`TypeError`, which escapes `shoot_wave`; the return type records both. -/
def entry_ray_of_upper (position : String) : Except PyError (Option Ray) :=
  if pyIsdigit position = true ∧ 1 ≤ pyStrToNat position ∧ pyStrToNat position ≤ 10 then
    Except.ok (some ⟨((pyStrToNat position : ℚ) - 1 + 1/2, 0), ⟨0, 1⟩, .white⟩)
  else if pyIsdigit position = true ∧ 11 ≤ pyStrToNat position ∧ pyStrToNat position ≤ 18 then
    Except.ok (some ⟨(0, (pyStrToNat position : ℚ) - 11 + 1/2), ⟨1, 0⟩, .white⟩)
  else if pyIsalpha position = true ∧ pyStrLE "A" position = true ∧ pyStrLE position "J" = true then
    match position.data with
    | [c] => Except.ok (some ⟨((c.toNat : ℚ) - 65 + 1/2, (GRID_HEIGHT : ℚ)), ⟨0, -1⟩, .white⟩)
    | _ => Except.error .typeError
  else if pyIsalpha position = true ∧ pyStrLE "K" position = true ∧ pyStrLE position "R" = true then
    match position.data with
    | [c] => Except.ok (some ⟨((GRID_WIDTH : ℚ), (c.toNat : ℚ) - 75 + 1/2), ⟨-1, 0⟩, .white⟩)
    | _ => Except.error .typeError
  else
    Except.ok none

/-- `RayTracer._create_entry_ray`: uppercase the position, then parse it. -/
def create_entry_ray (position0 : String) : Except PyError (Option Ray) :=
  entry_ray_of_upper (pyUpper position0)

/-- `RayTracer._ray_edge_intersection`: intersection of a ray with a line
segment via the standard two-parameter linear system; a near-parallel
configuration (absolute determinant below `1e-10`) yields no intersection. -/
def ray_edge_intersection (ray_origin : ℚ × ℚ) (ray_direction : Vector2D)
    (edge_start edge_end : ℚ × ℚ) : Option (ℚ × ℚ) :=
  let x1 := ray_origin.1
  let y1 := ray_origin.2
  let dx := ray_direction.x
  let dy := ray_direction.y
  let x3 := edge_start.1
  let y3 := edge_start.2
  let x4 := edge_end.1
  let y4 := edge_end.2
  let denom := dx * (y4 - y3) - dy * (x4 - x3)
  if |denom| < 1 / 10000000000 then
    none
  else
    let t := ((x3 - x1) * (y4 - y3) - (y3 - y1) * (x4 - x3)) / denom
    let s := ((x3 - x1) * dy - (y3 - y1) * dx) / denom
    if 0 < t ∧ 0 ≤ s ∧ s ≤ 1 then
      some (x1 + t * dx, y1 + t * dy)
    else
      none

/-- `RayTracer._find_nearest_intersection`: scan all edges of all placed
pieces (edge endpoints translated by the placement position), keeping the
strictly nearest intersection whose distance exceeds the self-hit threshold
`1e-4` (squared here, see `Intersection`).  `min_distance` starts at infinity,
embedded as `none`. -/
def find_nearest_intersection (placed_pieces : List (PieceGeometry × (ℤ × ℤ)))
    (ray : Ray) : Option Intersection :=
  (placed_pieces.foldl (fun acc pp =>
    let piece := pp.1
    let px : ℚ := (pp.2.1 : ℚ)
    let py : ℚ := (pp.2.2 : ℚ)
    piece.edges.foldl (fun (acc : Option Intersection × Option ℚ) edge =>
      let edge_start := (edge.start.1 + px, edge.start.2 + py)
      let edge_end := (edge.end_.1 + px, edge.end_.2 + py)
      match ray_edge_intersection ray.origin ray.direction edge_start edge_end with
      | none => acc
      | some ipt =>
        let dsq := (ipt.1 - ray.origin.1) ^ 2 + (ipt.2 - ray.origin.2) ^ 2
        if ((match acc.2 with | none => true | some m => decide (dsq < m)) &&
            decide ((1 : ℚ) / 100000000 < dsq)) = true then
          (some ⟨ipt, dsq, edge, piece⟩, some dsq)
        else acc) acc) ((none, none) : Option Intersection × Option ℚ)).1

/-- `RayTracer._edge_normal` composed with `Vector2D.reflect` and the final
`normalize`, as used by `RayTracer._calculate_reflection`.  The source forms
the unit normal `n = p / ‖p‖` with `p = (-(ey2 - ey1), ex2 - ex1)`, reflects
`r = d - 2 (d·n) n`, and renormalizes `r`.  Substituting `n` gives the exact
rational identity `r = d - (2 (d·p) / (p·p)) p`, used here; reflection across
a unit normal preserves the norm, and every direction reaching this function
is a unit vector (the entry directions are unit vectors and reflection
preserves that), so the final renormalization is the identity.  For a
zero-length edge the source normalizes the zero vector to `(0, 0)` and the
reflection returns `d` unchanged; here `p·p = 0` makes the quotient zero
(rational division by zero), giving `d` as well. -/
def calculate_reflection (incident : Vector2D) (edge : Edge) : Vector2D :=
  let px := -(edge.end_.2 - edge.start.2)
  let py := edge.end_.1 - edge.start.1
  let k := 2 * (incident.x * px + incident.y * py) / (px * px + py * py)
  ⟨incident.x - k * px, incident.y - k * py⟩

/-- `RayTracer._find_grid_exit`: crossing of the ray with the four grid
boundary lines; candidates are collected in the source order (top, bottom,
left, right), sorted stably by the ray parameter `t`, and the first is
returned, i.e. the earliest candidate attaining the minimal `t`. -/
def find_grid_exit (ray : Ray) : Option (ℚ × ℚ) :=
  let x := ray.origin.1
  let y := ray.origin.2
  let dx := ray.direction.x
  let dy := ray.direction.y
  let top : List (ℚ × ℚ × ℚ) :=
    if dy < 0 then
      let t := -y / dy
      let exit_x := x + t * dx
      if 0 ≤ exit_x ∧ exit_x ≤ (GRID_WIDTH : ℚ) then [(exit_x, 0, t)] else []
    else []
  let bottom : List (ℚ × ℚ × ℚ) :=
    if dy > 0 then
      let t := ((GRID_HEIGHT : ℚ) - y) / dy
      let exit_x := x + t * dx
      if 0 ≤ exit_x ∧ exit_x ≤ (GRID_WIDTH : ℚ) then [(exit_x, (GRID_HEIGHT : ℚ), t)] else []
    else []
  let left : List (ℚ × ℚ × ℚ) :=
    if dx < 0 then
      let t := -x / dx
      let exit_y := y + t * dy
      if 0 ≤ exit_y ∧ exit_y ≤ (GRID_HEIGHT : ℚ) then [(0, exit_y, t)] else []
    else []
  let right : List (ℚ × ℚ × ℚ) :=
    if dx > 0 then
      let t := ((GRID_WIDTH : ℚ) - x) / dx
      let exit_y := y + t * dy
      if 0 ≤ exit_y ∧ exit_y ≤ (GRID_HEIGHT : ℚ) then [((GRID_WIDTH : ℚ), exit_y, t)] else []
    else []
  match top ++ bottom ++ left ++ right with
  | [] => none
  | c :: cs =>
    let best := cs.foldl (fun b cand => if cand.2.2 < b.2.2 then cand else b) c
    some (best.1, best.2.1)

/-- `RayTracer._point_to_edge_position`: convert an exit point back to a
boundary label within the `0.01` tolerance; each boundary block falls through
to the next when its inner range check fails, and `"?"` is the final
fallback. -/
def point_to_edge_position (point : ℚ × ℚ) : String :=
  let x := point.1
  let y := point.2
  let eps : ℚ := 1 / 100
  if |y| < eps ∧ 1 ≤ pyInt x + 1 ∧ pyInt x + 1 ≤ 10 then
    toString (pyInt x + 1)
  else if |y - (GRID_HEIGHT : ℚ)| < eps ∧ 0 ≤ pyInt x ∧ pyInt x < 10 then
    String.singleton (Char.ofNat (65 + (pyInt x).toNat))
  else if |x| < eps ∧ 0 ≤ pyInt y ∧ pyInt y < 8 then
    toString (11 + pyInt y)
  else if |x - (GRID_WIDTH : ℚ)| < eps ∧ 0 ≤ pyInt y ∧ pyInt y < 8 then
    String.singleton (Char.ofNat (75 + (pyInt y).toNat))
  else
    "?"

/-- Value of Python `str(piece_color)` for the `str`-mixin enum `PieceColor`:
`Enum.__str__` applies, yielding the qualified member name such as
`"PieceColor.RED"`, not the string value `"red"`. -/
def pyStrPieceColor : PieceColor → String
  | .red => "PieceColor.RED"
  | .blue => "PieceColor.BLUE"
  | .yellow => "PieceColor.YELLOW"
  | .white => "PieceColor.WHITE"
  | .transparent => "PieceColor.TRANSPARENT"
  | .black => "PieceColor.BLACK"

/-- The literal dictionary of `RayTracer._piece_color_to_mineral`. -/
def mineral_color_map : List (String × MineralColor) :=
  [("red", .red), ("blue", .blue), ("yellow", .yellow),
   ("white", .white), ("transparent", .transparent), ("black", .black)]

/-- `RayTracer._piece_color_to_mineral`: look up `str(piece_color).lower()` in
the dictionary, defaulting to `TRANSPARENT`.  Since `str(piece_color)` is the
qualified name (see `pyStrPieceColor`), the lowered key has the shape
`"piececolor.red"`, which never occurs in the dictionary, so the default
applies to every piece color. -/
def piece_color_to_mineral (piece_color : PieceColor) : MineralColor :=
  (mineral_color_map.lookup (pyLower (pyStrPieceColor piece_color))).getD .transparent

/-- The body of the `for _ in range(self.MAX_REFLECTIONS)` loop of
`RayTracer.shoot_wave`, with the remaining iteration count as explicit fuel.
Fuel zero is the loop having exhausted `MAX_REFLECTIONS` iterations, after
which the source returns the absorbed-shaped result (`exit_position = None`,
`exit_color = None`); the `break` on a missing grid exit reaches the same
return statement. -/
def propagate (placed_pieces : List (PieceGeometry × (ℤ × ℤ)))
    (entry_position : String) :
    Ray → List WavePathSegment → ℕ → ℕ → WaveResult
  | _, path_segments, reflections, 0 =>
    ⟨entry_position, none, none, path_segments, reflections⟩
  | current_ray, path_segments, reflections, fuel + 1 =>
    match find_nearest_intersection placed_pieces current_ray with
    | none =>
      match find_grid_exit current_ray with
      | some exit_point =>
        let path := path_segments ++ [⟨current_ray.origin, exit_point, current_ray.color⟩]
        ⟨entry_position, some (point_to_edge_position exit_point),
         some current_ray.color, path, reflections⟩
      | none =>
        ⟨entry_position, none, none, path_segments, reflections⟩
    | some intersection =>
      let path := path_segments ++ [⟨current_ray.origin, intersection.point, current_ray.color⟩]
      match mix_colors current_ray.color (piece_color_to_mineral intersection.piece.piece_color) with
      | none =>
        ⟨entry_position, none, none, path, reflections⟩
      | some new_color =>
        let reflected := calculate_reflection current_ray.direction intersection.edge
        let eps : ℚ := 1 / 1000
        let new_origin := (intersection.point.1 + reflected.x * eps,
                           intersection.point.2 + reflected.y * eps)
        propagate placed_pieces entry_position
          ⟨new_origin, reflected, new_color⟩ path (reflections + 1) fuel

/-- `RayTracer.shoot_wave`: parse the entry position (raising `ValueError` on
`None`, and propagating the `TypeError` of `_create_entry_ray`), then run the
propagation loop with `MAX_REFLECTIONS` iterations of fuel. -/
def shoot_wave (placed_pieces : List (PieceGeometry × (ℤ × ℤ)))
    (entry_position : String) : Except PyError WaveResult :=
  match create_entry_ray entry_position with
  | .error e => .error e
  | .ok none => .error (.valueError ("Invalid entry position: " ++ entry_position))
  | .ok (some ray) =>
    .ok (propagate placed_pieces entry_position ray [] 0 MAX_REFLECTIONS)

/-! ## Spec-side definitions used to state the claims -/

/-- Direction sign pattern of the spec convention for edge angles, y increasing
downward: 0 is right, 90 is down, 180 is left, 270 is up, with the four
diagonals in between; angles outside the eight compass values have no
direction. -/
def angle_dir (a : ℤ) : Option (ℤ × ℤ) :=
  if a % 360 = 0 then some (1, 0)
  else if a % 360 = 45 then some (1, 1)
  else if a % 360 = 90 then some (0, 1)
  else if a % 360 = 135 then some (-1, 1)
  else if a % 360 = 180 then some (-1, 0)
  else if a % 360 = 225 then some (-1, -1)
  else if a % 360 = 270 then some (0, -1)
  else if a % 360 = 315 then some (1, -1)
  else none

/-- The spec invariant for one edge: the declared angle is consistent with the
direction of the vector from start to end, i.e. that vector is a positive
scalar multiple of the compass direction of the angle (zero cross product and
positive dot product). -/
def angle_consistent (e : Edge) : Bool :=
  match angle_dir e.angle with
  | none => false
  | some u =>
    let dx := e.end_.1 - e.start.1
    let dy := e.end_.2 - e.start.2
    decide (dx * (u.2 : ℚ) - dy * (u.1 : ℚ) = 0 ∧ 0 < dx * (u.1 : ℚ) + dy * (u.2 : ℚ))

/-- The six light wave colors named by the claim. -/
def is_light : WaveColor → Bool
  | .light_red | .light_blue | .light_yellow => true
  | .light_violet | .light_orange | .light_green => true
  | _ => false

/-- The base (non-light) color of each light variant, identity elsewhere, as
named by the claim. -/
def base_color : WaveColor → WaveColor
  | .light_red => .red
  | .light_blue => .blue
  | .light_yellow => .yellow
  | .light_violet => .violet
  | .light_orange => .orange
  | .light_green => .green
  | c => c

/-- The 36 boundary labels as literally written in the claim: the numerals
"1" through "18" and the letters "A" through "R". -/
def spec_boundary_labels : List String :=
  (List.range 18).map (fun i => toString (i + 1 : ℕ)) ++
  (List.range 18).map (fun i => String.singleton (Char.ofNat (65 + i)))

/-- A wave result with the recorded entry label removed, for comparing traces
of two labels that denote the same entry point. -/
def strip_entry (w : WaveResult) :
    Option String × Option WaveColor × List WavePathSegment × ℕ :=
  (w.exit_position, w.exit_color, w.path, w.reflections)

deriving instance DecidableEq for Except

set_option allowUnsafeReducibility true

attribute [local semireducible] Rat.add Rat.sub Rat.mul Rat.inv Rat.ofScientific

/-! ## Claims -/

/-- C1 (code_bug evidence): `get_occupied_cells` at origin (0,0) disagrees with
the declared `area` for two of the seven canonical pieces.  The medium
triangle covers three cells, because both cell centers lying exactly on its
hypotenuse are classified inside by the ray-casting test, against its declared
area 2; the parallelogram covers one cell, because the center on its left
diagonal is classified outside while the one on its right diagonal is
classified inside, against its declared area 2.  The remaining five pieces
match their declared areas, as the full count table shows. -/
theorem occupancy_area_mismatch :
    create_medium_triangle.get_occupied_cells (0, 0) = [(0, 0), (1, 0), (0, 1)] ∧
    create_medium_triangle.area = 2 ∧
    create_parallelogram.get_occupied_cells (0, 0) = [(1, 0)] ∧
    create_parallelogram.area = 2 ∧
    get_all_pieces.map (fun g => ((g.get_occupied_cells (0, 0)).length, g.area)) =
      [(4, 4), (4, 4), (3, 2), (1, 1), (2, 2), (1, 2), (2, 2)] := by
  decide

/-- C2 (counterexample): a white mineral does not pass the wave color through
unchanged; mixing red with a white mineral yields light red. -/
theorem white_mineral_not_pass_through :
    mix_colors .red .white = some .light_red ∧
    (some WaveColor.light_red ≠ some WaveColor.red) := by
  decide

/-- C2 (amended): a transparent mineral passes every wave color through
unchanged; a white mineral instead maps the wave color through the lightening
table (each base color to its light variant, as red to light red; white and
the light colors unchanged; black to white), and lightening is idempotent. -/
theorem mineral_transparent_white_policy :
    (∀ w, mix_colors w .transparent = some w) ∧
    (∀ w, mix_colors w .white = some (lighten_color w)) ∧
    lighten_color .red = .light_red ∧
    (∀ w, lighten_color (lighten_color w) = lighten_color w) := by
  decide

/-- C8: mixing returns `none` (the absorption signal) exactly when the mineral
is black; every non-black mineral yields some wave color. -/
theorem mix_colors_absorption_iff :
    ∀ (w : WaveColor) (m : MineralColor), mix_colors w m = none ↔ m = .black := by
  decide

/-- C9: a light wave color decomposes to the same primary components as its
base color, mixes with a primary mineral exactly as its base color does, and
the mixed result is never a light color. -/
theorem light_color_mixing (w : WaveColor) (m : MineralColor)
    (hw : is_light w = true) (hm : m = .red ∨ m = .blue ∨ m = .yellow) :
    get_color_components w = get_color_components (base_color w) ∧
    mix_colors w m = mix_colors (base_color w) m ∧
    (mix_colors w m).map is_light = some false := by
  rcases hm with rfl | rfl | rfl <;> revert w <;> decide

/-- Witness for C9 at light red and a blue mineral. -/
theorem light_color_mixing_witness :
    is_light .light_red = true ∧
    (get_color_components .light_red = get_color_components (base_color .light_red) ∧
     mix_colors .light_red .blue = mix_colors (base_color .light_red) .blue ∧
     (mix_colors .light_red .blue).map is_light = some false) :=
  ⟨by decide, light_color_mixing .light_red .blue (by decide) (Or.inr (Or.inl rfl))⟩

/-- C6 (code_bug evidence): the declared edge angles are inconsistent with the
start-to-end direction on both legs of every triangle and on the left diagonal
of the parallelogram; only the square and the petroleum block are fully
consistent.  Concretely the first edge of the medium triangle runs from (0,0)
to (0,2), pointing down (90 degrees in the documented convention), but is
declared with angle 270. -/
theorem edge_angle_consistency_table :
    get_all_pieces.map (fun g => g.edges.map angle_consistent) =
      [[false, false, true], [false, false, true], [false, false, true],
       [false, false, true], [true, true, true, true], [true, true, true, false],
       [true, true, true, true]] ∧
    create_medium_triangle.edges.head? = some ⟨(0, 0), (0, 2), 270, false⟩ ∧
    angle_consistent ⟨(0, 0), (0, 2), 270, false⟩ = false ∧
    angle_consistent ⟨(0, 0), (0, 2), 90, false⟩ = true := by
  decide

/-- C7: on every canonical piece, rotating by 0 degrees is the identity and
four successive 90 degree rotations reproduce the piece exactly (vertices,
edges, declared angles and rotation tag), hence in particular within the 1e-9
tolerance; and every rotation preserves the declared area and every is_diagonal
flag.  Immutability is inherent to the embedding: `rotate` builds a new value
and the source likewise returns a fresh `PieceGeometry`. -/
theorem canonical_rotation_properties :
    (get_all_pieces.all (fun g =>
        (g.rotate 0 == g) &&
        ((((g.rotate 90).rotate 90).rotate 90).rotate 90 == g))) = true ∧
    ∀ (g : PieceGeometry) (d : ℤ),
      (g.rotate d).area = g.area ∧
      (g.rotate d).edges.map Edge.is_diagonal = g.edges.map Edge.is_diagonal := by
  refine ⟨by decide, fun g d => ⟨rfl, ?_⟩⟩
  simp only [PieceGeometry.rotate, List.map_map]
  rfl

/-- C4: on an empty board, shooting entry label "1" exits at "A" with color
white, zero reflections, and the single path segment from (1/2, 0) to
(1/2, 8). -/
theorem empty_board_entry_one :
    shoot_wave [] "1" =
      .ok ⟨"1", some "A", some .white, [⟨(1/2, 0), (1/2, 8), .white⟩], 0⟩ := by
  decide

/-- C3: for every board and every accepted entry label, the trace is the
propagation loop run with exactly `MAX_REFLECTIONS = 100` iterations of fuel,
so it terminates after at most 100 iterations; and whenever the loop exhausts
its fuel, the result is reported as absorbed (`exit_position = none` and
`exit_color = none`) with the path and reflection count accumulated so far,
not as an error. -/
theorem shoot_wave_reflection_cap (placed : List (PieceGeometry × (ℤ × ℤ)))
    (label : String) (ray : Ray)
    (h : create_entry_ray label = .ok (some ray)) :
    MAX_REFLECTIONS = 100 ∧
    shoot_wave placed label = .ok (propagate placed label ray [] 0 MAX_REFLECTIONS) ∧
    ∀ (r : Ray) (segs : List WavePathSegment) (n : ℕ),
      propagate placed label r segs n 0 = ⟨label, none, none, segs, n⟩ := by
  refine ⟨rfl, ?_, fun r segs n => rfl⟩
  simp only [shoot_wave, h]

/-- Witness for C3 on the empty board with entry label "1". -/
theorem shoot_wave_reflection_cap_witness :
    create_entry_ray "1" = .ok (some ⟨(1/2, 0), ⟨0, 1⟩, .white⟩) ∧
    (MAX_REFLECTIONS = 100 ∧
     shoot_wave [] "1" =
       .ok (propagate [] "1" ⟨(1/2, 0), ⟨0, 1⟩, .white⟩ [] 0 MAX_REFLECTIONS) ∧
     ∀ (r : Ray) (segs : List WavePathSegment) (n : ℕ),
       propagate [] "1" r segs n 0 = ⟨"1", none, none, segs, n⟩) :=
  ⟨by decide, shoot_wave_reflection_cap [] "1" ⟨(1/2, 0), ⟨0, 1⟩, .white⟩ (by decide)⟩

/-- The entry label is threaded into every result of the propagation loop but
never examined, so the trace with the label stripped is independent of it. -/
theorem propagate_strip (placed : List (PieceGeometry × (ℤ × ℤ)))
    (e1 e2 : String) (r : Ray) (segs : List WavePathSegment) (n fuel : ℕ) :
    strip_entry (propagate placed e1 r segs n fuel) =
    strip_entry (propagate placed e2 r segs n fuel) := by
  induction fuel generalizing r segs n with
  | zero => rfl
  | succ fuel ih =>
    simp only [propagate]
    rcases hfi : find_nearest_intersection placed r with _ | i
    · rcases hge : find_grid_exit r with _ | p
      · simp only [hfi, hge]
        rfl
      · simp only [hfi, hge]
        rfl
    · rcases hm : mix_colors r.color (piece_color_to_mineral i.piece.piece_color) with _ | c
      · simp only [hfi, hm]
        rfl
      · simp only [hfi, hm]
        exact ih _ _ _

/-- Two labels that parse to the same entry ray produce the same trace up to
the recorded entry label (the invalid case is excluded because there the
`ValueError` message embeds the original label). -/
theorem shoot_wave_strip_congr (placed : List (PieceGeometry × (ℤ × ℤ)))
    (s1 s2 : String)
    (h : create_entry_ray s1 = create_entry_ray s2)
    (hn : create_entry_ray s1 ≠ .ok none) :
    (shoot_wave placed s1).map strip_entry = (shoot_wave placed s2).map strip_entry := by
  rcases hc : create_entry_ray s1 with e | op
  · rw [hc] at h
    simp only [shoot_wave, hc, ← h]
  · rcases op with _ | r
    · exact absurd hc hn
    · rw [hc] at h
      simp only [shoot_wave, hc, ← h, Except.map]
      exact congrArg Except.ok (propagate_strip placed s1 s2 r [] 0 MAX_REFLECTIONS)

/-- Whether `shoot_wave` would accept the label and construct an entry ray. -/
def returns_ray (s : String) : Bool :=
  match create_entry_ray s with
  | .ok (some _) => true
  | _ => false

/-- The eighteen lowercase boundary letters paired with their uppercase
forms. -/
def lowercase_label_pairs : List (String × String) :=
  [("a", "A"), ("b", "B"), ("c", "C"), ("d", "D"), ("e", "E"), ("f", "F"),
   ("g", "G"), ("h", "H"), ("i", "I"), ("j", "J"), ("k", "K"), ("l", "L"),
   ("m", "M"), ("n", "N"), ("o", "O"), ("p", "P"), ("q", "Q"), ("r", "R")]

/-- C10: each lowercase letter label "a" through "r" is uppercased before
matching: it parses to exactly the same entry ray as its uppercase form
instead of being rejected as invalid, and on every board the resulting trace
agrees with the uppercase trace in everything except the recorded
entry_position string. -/
theorem lowercase_entry_equivalent (lab LAB : String)
    (h : (lab, LAB) ∈ lowercase_label_pairs) :
    LAB = pyUpper lab ∧
    create_entry_ray lab = create_entry_ray LAB ∧
    returns_ray lab = true ∧
    ∀ placed, (shoot_wave placed lab).map strip_entry =
      (shoot_wave placed LAB).map strip_entry := by
  fin_cases h <;>
    exact ⟨by decide, by decide, by decide,
      fun placed => shoot_wave_strip_congr placed _ _ (by decide) (by decide)⟩

/-- Witness for C10 at the label pair ("a", "A"). -/
theorem lowercase_entry_equivalent_witness :
    ("a", "A") ∈ lowercase_label_pairs ∧
    ("A" = pyUpper "a" ∧
     create_entry_ray "a" = create_entry_ray "A" ∧
     returns_ray "a" = true ∧
     ∀ placed, (shoot_wave placed "a").map strip_entry =
       (shoot_wave placed "A").map strip_entry) :=
  ⟨by decide, lowercase_entry_equivalent "a" "A" (by decide)⟩

/-- C5 (counterexample): the lowercase label "a" matches none of the patterns
"1" through "18" and "A" through "R" as the claim states them, yet shoot_wave
does not fail on it: it accepts the label and produces a complete result. -/
theorem lowercase_label_accepted :
    spec_boundary_labels.contains "a" = false ∧
    shoot_wave [] "a" =
      .ok ⟨"a", some "1", some .white, [⟨(1/2, 8), (1/2, 0), .white⟩], 0⟩ := by
  decide

/-- A digit character is not a letter. -/
theorem digitChar_not_alphaChar (c : Char) :
    isDigitChar c = true → isAlphaChar c = false := by
  simp only [isDigitChar, isAlphaChar, Bool.and_eq_true, Bool.or_eq_true,
    decide_eq_true_eq, Bool.or_eq_false_iff, Bool.and_eq_false_iff,
    decide_eq_false_iff_not, not_le]
  omega

/-- A digit string is not alphabetic. -/
theorem pyIsdigit_not_alpha (u : String) :
    pyIsdigit u = true → pyIsalpha u = false := by
  obtain ⟨l⟩ := u
  cases l with
  | nil => intro h; simp [pyIsdigit] at h
  | cons c t =>
    intro h
    simp only [pyIsdigit, List.all_cons, Bool.and_eq_true, List.isEmpty_cons,
      Bool.not_false] at h
    simp only [pyIsalpha, List.all_cons, List.isEmpty_cons, Bool.not_false,
      Bool.true_and, Bool.and_eq_false_iff]
    exact Or.inl (digitChar_not_alphaChar c h.2.1)

/-- Lexicographic comparison of a singleton against a nonempty list is decided
by the head code points. -/
theorem lexLE_single_cons (a c : Char) (cs : List Char) :
    lexLE [a] (c :: cs) = true ↔ a.toNat ≤ c.toNat := by
  simp only [lexLE]
  split_ifs with h1 h2 <;> simp [lexLE] <;> omega

/-- Lexicographic comparison of a nonempty list against a singleton. -/
theorem lexLE_cons_single (c : Char) (cs : List Char) (a : Char) :
    lexLE (c :: cs) [a] = true ↔
      (c.toNat < a.toNat ∨ (c.toNat = a.toNat ∧ cs = [])) := by
  simp only [lexLE]
  split_ifs with h1 h2
  · simp only [true_iff]
    exact Or.inl h1
  · cases cs <;> simp [lexLE] <;> omega
  · simp only [Bool.false_eq_true, false_iff, not_or, not_and]
    exact ⟨h1, fun he => absurd he h2⟩

/-- Lexicographic comparison of two singletons. -/
theorem lexLE_single_single (c a : Char) :
    lexLE [c] [a] = true ↔ c.toNat ≤ a.toNat := by
  rw [lexLE_cons_single]
  constructor
  · rintro (h | ⟨h, -⟩) <;> omega
  · intro h
    rcases Nat.lt_or_ge c.toNat a.toNat with h2 | h2
    · exact Or.inl h2
    · exact Or.inr ⟨by omega, rfl⟩

/-- The entry parser never raises a ValueError itself; its only error is the
TypeError of `ord()` on a long alphabetic string. -/
theorem entry_ray_no_valueError (u m : String) :
    entry_ray_of_upper u ≠ .error (.valueError m) := by
  unfold entry_ray_of_upper
  split_ifs <;>
    (rcases hd : u.data with _ | ⟨c, _ | ⟨d, t⟩⟩ <;> simp [hd])

/-- Classification of the entry parser on an arbitrary (already uppercased)
string: a ray is produced exactly for digit strings with value 1 to 18 and for
single letters A to R; a TypeError arises exactly for alphabetic strings of
length at least two lying in the lexicographic letter ranges. -/
theorem entry_upper_classification (u : String) :
    ((match entry_ray_of_upper u with | .ok (some _) => true | _ => false) = true ↔
      (pyIsdigit u = true ∧ 1 ≤ pyStrToNat u ∧ pyStrToNat u ≤ 18) ∨
      (∃ c, u.data = [c] ∧ 65 ≤ c.toNat ∧ c.toNat ≤ 82)) ∧
    (entry_ray_of_upper u = .error .typeError ↔
      (pyIsalpha u = true ∧ 2 ≤ u.data.length ∧
        ((pyStrLE "A" u = true ∧ pyStrLE u "J" = true) ∨
         (pyStrLE "K" u = true ∧ pyStrLE u "R" = true)))) := by
  have hA : ("A" : String).data = ['A'] := rfl
  have hJ : ("J" : String).data = ['J'] := rfl
  have hK : ("K" : String).data = ['K'] := rfl
  have hR : ("R" : String).data = ['R'] := rfl
  have nA : ('A' : Char).toNat = 65 := rfl
  have nJ : ('J' : Char).toNat = 74 := rfl
  have nK : ('K' : Char).toNat = 75 := rfl
  have nR : ('R' : Char).toNat = 82 := rfl
  unfold entry_ray_of_upper
  split_ifs with h1 h2 h3 h4
  · refine ⟨iff_of_true rfl (Or.inl ⟨h1.1, h1.2.1, by omega⟩), iff_of_false (by simp) ?_⟩
    rintro ⟨ha, -, -⟩
    rw [pyIsdigit_not_alpha u h1.1] at ha
    exact Bool.false_ne_true ha
  · refine ⟨iff_of_true rfl (Or.inl ⟨h2.1, by omega, h2.2.2⟩), iff_of_false (by simp) ?_⟩
    rintro ⟨ha, -, -⟩
    rw [pyIsdigit_not_alpha u h2.1] at ha
    exact Bool.false_ne_true ha
  · obtain ⟨ha, hlo, hhi⟩ := h3
    rw [pyStrLE, hA] at hlo
    rw [pyStrLE, hJ] at hhi
    rcases hd : u.data with _ | ⟨c, t⟩
    · rw [pyIsalpha, hd] at ha
      simp at ha
    · rw [hd] at hlo hhi
      rcases t with _ | ⟨d, t2⟩
      · have hc1 : 65 ≤ c.toNat := by rw [lexLE_single_cons] at hlo; omega
        have hc2 : c.toNat ≤ 74 := by
          rw [lexLE_cons_single] at hhi
          omega
        simp only [hd]
        refine ⟨iff_of_true (by trivial) (Or.inr ⟨c, rfl, hc1, by omega⟩),
          iff_of_false (by simp) ?_⟩
        rintro ⟨-, hlen, -⟩
        simp at hlen
      · simp only [hd]
        refine ⟨iff_of_false (by simp) ?_, iff_of_true (by trivial) ?_⟩
        · rintro (⟨hdig, -, -⟩ | ⟨e, he, -⟩)
          · rw [pyIsdigit_not_alpha u hdig] at ha
            exact Bool.false_ne_true ha
          · simp at he
        · refine ⟨ha, by simp, Or.inl ⟨?_, ?_⟩⟩
          · rw [pyStrLE, hA, hd]
            exact hlo
          · rw [pyStrLE, hJ, hd]
            exact hhi
  · obtain ⟨ha, hlo, hhi⟩ := h4
    rw [pyStrLE, hK] at hlo
    rw [pyStrLE, hR] at hhi
    rcases hd : u.data with _ | ⟨c, t⟩
    · rw [pyIsalpha, hd] at ha
      simp at ha
    · rw [hd] at hlo hhi
      rcases t with _ | ⟨d, t2⟩
      · have hc1 : 75 ≤ c.toNat := by rw [lexLE_single_cons] at hlo; omega
        have hc2 : c.toNat ≤ 82 := by
          rw [lexLE_cons_single] at hhi
          omega
        simp only [hd]
        refine ⟨iff_of_true (by trivial) (Or.inr ⟨c, rfl, by omega, hc2⟩),
          iff_of_false (by simp) ?_⟩
        rintro ⟨-, hlen, -⟩
        simp at hlen
      · simp only [hd]
        refine ⟨iff_of_false (by simp) ?_, iff_of_true (by trivial) ?_⟩
        · rintro (⟨hdig, -, -⟩ | ⟨e, he, -⟩)
          · rw [pyIsdigit_not_alpha u hdig] at ha
            exact Bool.false_ne_true ha
          · simp at he
        · refine ⟨ha, by simp, Or.inr ⟨?_, ?_⟩⟩
          · rw [pyStrLE, hK, hd]
            exact hlo
          · rw [pyStrLE, hR, hd]
            exact hhi
  · refine ⟨iff_of_false (by simp) ?_, iff_of_false (by simp) ?_⟩
    · rintro (⟨hdig, hlo, hhi⟩ | ⟨c, hd, h65, h82⟩)
      · rcases le_or_lt (pyStrToNat u) 10 with hle | hgt
        · exact h1 ⟨hdig, hlo, hle⟩
        · exact h2 ⟨hdig, by omega, hhi⟩
      · have halpha : pyIsalpha u = true := by
          rw [pyIsalpha, hd]
          simp only [List.isEmpty_cons, Bool.not_false, List.all_cons,
            List.all_nil, Bool.and_true, Bool.true_and, isAlphaChar]
          simp only [Bool.or_eq_true, Bool.and_eq_true, decide_eq_true_eq]
          omega
        rcases le_or_lt c.toNat 74 with hle | hgt
        · refine h3 ⟨halpha, ?_, ?_⟩
          · rw [pyStrLE, hA, hd, lexLE_single_cons]
            omega
          · rw [pyStrLE, hJ, hd, lexLE_single_single]
            omega
        · refine h4 ⟨halpha, ?_, ?_⟩
          · rw [pyStrLE, hK, hd, lexLE_single_cons]
            omega
          · rw [pyStrLE, hR, hd, lexLE_single_single]
            omega
    · rintro ⟨halpha, -, (⟨hlo, hhi⟩ | ⟨hlo, hhi⟩)⟩
      · exact h3 ⟨halpha, hlo, hhi⟩
      · exact h4 ⟨halpha, hlo, hhi⟩

/-- C5 (amended): after uppercasing, a ray is constructed exactly for the
digit strings whose integer value is 1 to 18 (leading zeros included) and for
the single letters A to R (hence also their lowercase forms); an alphabetic
string of length at least two falling in the lexicographic letter ranges fails
with a type error from `ord()` rather than the invalid-entry condition; every
other label, and only those, fails with the invalid-entry `ValueError` before
any tracing begins, producing no (partial) wave result on any board. -/
theorem entry_label_classification (s : String)
    (hascii : ∀ c ∈ s.data, c.toNat < 128) :
    (returns_ray s = true ↔
      (pyIsdigit (pyUpper s) = true ∧
        1 ≤ pyStrToNat (pyUpper s) ∧ pyStrToNat (pyUpper s) ≤ 18) ∨
      (∃ c, (pyUpper s).data = [c] ∧ 65 ≤ c.toNat ∧ c.toNat ≤ 82)) ∧
    (create_entry_ray s = .error .typeError ↔
      (pyIsalpha (pyUpper s) = true ∧ 2 ≤ (pyUpper s).data.length ∧
        ((pyStrLE "A" (pyUpper s) = true ∧ pyStrLE (pyUpper s) "J" = true) ∨
         (pyStrLE "K" (pyUpper s) = true ∧ pyStrLE (pyUpper s) "R" = true)))) ∧
    (∀ placed, create_entry_ray s = .ok none ↔
      shoot_wave placed s = .error (.valueError ("Invalid entry position: " ++ s))) := by
  refine ⟨(entry_upper_classification (pyUpper s)).1,
    (entry_upper_classification (pyUpper s)).2, fun placed => ?_⟩
  constructor
  · intro h
    simp only [shoot_wave, h]
  · intro h
    rcases hc : create_entry_ray s with e | op
    · simp only [shoot_wave, hc] at h
      obtain rfl := (Except.error.injEq _ _).mp h
      exact absurd hc (entry_ray_no_valueError (pyUpper s) _)
    · rcases op with _ | r
      · rfl
      · simp only [shoot_wave, hc] at h
        exact Except.noConfusion h

/-- Witness for C5 at the label "a": lowercase, hence outside the literal
patterns, but accepted after uppercasing. -/
theorem entry_label_classification_witness :
    (∀ c ∈ ("a" : String).data, c.toNat < 128) ∧
    ((returns_ray "a" = true ↔
       (pyIsdigit (pyUpper "a") = true ∧
         1 ≤ pyStrToNat (pyUpper "a") ∧ pyStrToNat (pyUpper "a") ≤ 18) ∨
       (∃ c, (pyUpper "a").data = [c] ∧ 65 ≤ c.toNat ∧ c.toNat ≤ 82)) ∧
     (create_entry_ray "a" = .error .typeError ↔
       (pyIsalpha (pyUpper "a") = true ∧ 2 ≤ (pyUpper "a").data.length ∧
         ((pyStrLE "A" (pyUpper "a") = true ∧ pyStrLE (pyUpper "a") "J" = true) ∨
          (pyStrLE "K" (pyUpper "a") = true ∧ pyStrLE (pyUpper "a") "R" = true)))) ∧
     (∀ placed, create_entry_ray "a" = .ok none ↔
       shoot_wave placed "a" = .error (.valueError ("Invalid entry position: " ++ "a")))) :=
  ⟨by decide, entry_label_classification "a" (by decide)⟩

end OrapaMine
